import Mathlib

deriving instance DecidableEq for Except

/-!
Verification of the rolling-horizon dispatch optimizer
(`rizm_challenge/util/optimize.py`).

The numeric type is `ℚ` (exact arithmetic; the Python code uses floats, but the
algebraic structure of every claim is about the expressions themselves).
Decision-variable and data vectors of the optimization window are `List ℚ`.
The external casadi solver is modelled as an oracle returning either an optimal
solution or a best-effort diagnostic iterate (the two outcomes `ocp.solve()`
can surface: a `Solution`, or a `RuntimeError` whose iterate is read through
`ocp.debug`). Plotting calls are pure side effects on screen and are omitted.
-/

namespace Rizm

/-- `OptVariables` dataclass: the five per-window decision vectors. -/
structure OptVariables where
  p_el_gt : List ℚ
  p_el_boiler_el : List ℚ
  p_th_boiler_gas : List ℚ
  p_el_pv : List ℚ
  slack_th : List ℚ
deriving DecidableEq

/-- `OptData` dataclass: the three externally-bound data vectors. -/
structure OptData where
  load_el : List ℚ
  load_th : List ℚ
  pv_avail : List ℚ
deriving DecidableEq

/-- Efficiency entries of `system_parameters["eff"]` used by the code. -/
structure Effs where
  gasturbine : ℚ
  electricboiler : ℚ
  gasboiler : ℚ
deriving DecidableEq

/-- Capacity entries of `system_parameters["cap"]` used by the code. -/
structure Caps where
  gasturbine : ℚ
  electricboiler : ℚ
  gasboiler : ℚ
  photovoltaic : ℚ
deriving DecidableEq

/-- `system_parameters : dict[str, pd.Series]` with keys `cap` and `eff`. -/
structure Parameters where
  cap : Caps
  eff : Effs
deriving DecidableEq

/-- One row of the input time series (columns `load_el`, `load_th`, `pv_avail`). -/
structure Row where
  load_el : ℚ
  load_th : ℚ
  pv_avail : ℚ
deriving DecidableEq

/-- `price_gas : float | np.ndarray` in `_objective_expression`. -/
inductive PriceGas where
  | scalar (p : ℚ)
  | series (ps : List ℚ)
deriving DecidableEq

/-- Value of the gas price at time step `t` (a scalar price broadcasts). -/
def priceAt : PriceGas → Nat → ℚ
  | .scalar p, _ => p
  | .series ps, t => ps.getD t 0

/-- `cas.sum1` on a column vector: the sum of its entries. -/
def sum1 (l : List ℚ) : ℚ := l.sum

/-- The value computed by the `return` expression of `_objective_expression`
(optimize.py lines 99-102), with casadi broadcasting made explicit: the inner
`cas.sum1(x.slack_th * slack_penalty)` is a 1x1 scalar added to every entry of
the gas-boiler cost vector before the outer `cas.sum1`. -/
def objective_value (x : OptVariables) (effs : Effs) (price_gas : PriceGas)
    (dt_h : ℚ) (slack_penalty : ℚ) : ℚ :=
  sum1 ((List.range x.p_el_gt.length).map fun t =>
      x.p_el_gt.getD t 0 / effs.gasturbine * dt_h * priceAt price_gas t)
  + sum1 ((List.range x.p_th_boiler_gas.length).map fun t =>
      x.p_th_boiler_gas.getD t 0 / effs.gasboiler * dt_h * priceAt price_gas t
      + sum1 (x.slack_th.map fun s => s * slack_penalty))

/-- `_objective_expression` (optimize.py lines 86-102): when `price_gas` is an
array, assert its length equals the length of the variable vectors, then
return the objective value. Defaults at the call sites: `price_gas = 35`,
`dt_h = 1`, `slack_penalty = 1000`. -/
def objectiveExpression (x : OptVariables) (effs : Effs) (price_gas : PriceGas)
    (dt_h : ℚ) (slack_penalty : ℚ) : Except String ℚ :=
  match price_gas with
  | .series ps =>
      if x.p_el_gt.length = ps.length then
        .ok (objective_value x effs (.series ps) dt_h slack_penalty)
      else
        .error "time variant gas price must have the same length as the variables"
  | .scalar p => .ok (objective_value x effs (.scalar p) dt_h slack_penalty)

/-- Cost formula as written in the spec (section 4.4), for comparison with the
code: the slack-penalty term is added once, outside both fuel sums. -/
def objective_spec (x : OptVariables) (effs : Effs) (price_gas : PriceGas)
    (dt_h : ℚ) (slack_penalty : ℚ) : ℚ :=
  sum1 ((List.range x.p_el_gt.length).map fun t =>
      x.p_el_gt.getD t 0 / effs.gasturbine * dt_h * priceAt price_gas t)
  + sum1 ((List.range x.p_th_boiler_gas.length).map fun t =>
      x.p_th_boiler_gas.getD t 0 / effs.gasboiler * dt_h * priceAt price_gas t)
  + slack_penalty * sum1 x.slack_th

/-- The two fuel-cost sums alone (the spec's "true fuel cost of the realized
schedule", i.e. the objective with the slack term absent). -/
def fuel_cost (x : OptVariables) (effs : Effs) (price_gas : PriceGas)
    (dt_h : ℚ) : ℚ :=
  sum1 ((List.range x.p_el_gt.length).map fun t =>
      x.p_el_gt.getD t 0 / effs.gasturbine * dt_h * priceAt price_gas t)
  + sum1 ((List.range x.p_th_boiler_gas.length).map fun t =>
      x.p_th_boiler_gas.getD t 0 / effs.gasboiler * dt_h * priceAt price_gas t)

/-! ### Symbolic constraint language

`ocp.variable(horizon)` / `ocp.parameter(horizon)` return casadi MX handles.
The model is built exactly once, so the handles are the fixed enumerations
`VarId` / `ParId`, and each `ocp.subject_to(...)` call appends one vectorized
constraint (applied at every time step of the horizon) to the model. -/

/-- Handles of the five decision vectors declared by `ocp.variable(horizon)`. -/
inductive VarId where
  | p_el_gt | p_el_boiler_el | p_th_boiler_gas | p_el_pv | slack_th
deriving DecidableEq

/-- Handles of the three data slots declared by `ocp.parameter(horizon)`. -/
inductive ParId where
  | load_el | load_th | pv_avail
deriving DecidableEq

/-- Vectorized MX expressions appearing in the `subject_to` calls. -/
inductive LinExpr where
  | const (c : ℚ)
  | var (v : VarId)
  | par (p : ParId)
  | add (a b : LinExpr)
  | sub (a b : LinExpr)
  | smul (c : ℚ) (a : LinExpr)
deriving DecidableEq

/-- A vectorized constraint added by one `ocp.subject_to(...)` call. -/
inductive Constr where
  | ge (a b : LinExpr)
  | le (a b : LinExpr)
  | eq (a b : LinExpr)
deriving DecidableEq

/-- Resolve a variable handle against extracted solution values. -/
def VarId.sel (x : OptVariables) : VarId → List ℚ
  | .p_el_gt => x.p_el_gt
  | .p_el_boiler_el => x.p_el_boiler_el
  | .p_th_boiler_gas => x.p_th_boiler_gas
  | .p_el_pv => x.p_el_pv
  | .slack_th => x.slack_th

/-- Resolve a parameter handle against window data values. -/
def ParId.sel (d : OptData) : ParId → List ℚ
  | .load_el => d.load_el
  | .load_th => d.load_th
  | .pv_avail => d.pv_avail

/-- Value of a vectorized expression at time step `t`. -/
def LinExpr.eval (x : OptVariables) (d : OptData) (t : Nat) : LinExpr → ℚ
  | .const c => c
  | .var v => (v.sel x).getD t 0
  | .par p => (p.sel d).getD t 0
  | .add a b => a.eval x d t + b.eval x d t
  | .sub a b => a.eval x d t - b.eval x d t
  | .smul c a => c * a.eval x d t

/-- A constraint holds at time step `t` for values `x` and data `d`. -/
def Constr.holds (x : OptVariables) (d : OptData) (t : Nat) : Constr → Prop
  | .ge a b => b.eval x d t ≤ a.eval x d t
  | .le a b => a.eval x d t ≤ b.eval x d t
  | .eq a b => a.eval x d t = b.eval x d t

instance (x : OptVariables) (d : OptData) (t : Nat) :
    (c : Constr) → Decidable (Constr.holds x d t c)
  | .ge _ _ => inferInstanceAs (Decidable (_ ≤ _))
  | .le _ _ => inferInstanceAs (Decidable (_ ≤ _))
  | .eq _ _ => inferInstanceAs (Decidable (_ = _))

/-- Whether a constraint is one of the equality constraints. -/
def Constr.isEqCon : Constr → Bool
  | .eq _ _ => true
  | _ => false

/-- `x` with data `d` satisfies every constraint at every step of the horizon. -/
def satisfiesAll (x : OptVariables) (d : OptData) (horizon : Nat)
    (cs : List Constr) : Prop :=
  ∀ c ∈ cs, ∀ t, t < horizon → Constr.holds x d t c

instance (x : OptVariables) (d : OptData) (horizon : Nat) (cs : List Constr) :
    Decidable (satisfiesAll x d horizon cs) :=
  inferInstanceAs (Decidable (∀ c ∈ cs, ∀ t, t < horizon → Constr.holds x d t c))

/-- The constraint list built by the `subject_to` calls of `_formulate_ocp`
(optimize.py lines 130-153), in source order. -/
def constraintsOf (caps : Caps) (effs : Effs) : List Constr :=
  [ .ge (.var .p_el_gt) (.const 0),
    .le (.var .p_el_gt) (.const caps.gasturbine),
    .ge (.var .p_el_boiler_el) (.const 0),
    .le (.var .p_el_boiler_el) (.const caps.electricboiler),
    .ge (.var .p_th_boiler_gas) (.const 0),
    .le (.var .p_th_boiler_gas) (.const caps.gasboiler),
    .ge (.var .p_el_pv) (.const 0),
    .le (.var .p_el_pv) (.smul caps.photovoltaic (.par .pv_avail)),
    .ge (.var .slack_th) (.const 0),
    .le (.var .slack_th) (.par .load_th),
    .eq (.add (.var .p_el_gt) (.var .p_el_pv))
        (.add (.par .load_el) (.var .p_el_boiler_el)),
    .eq (.add (.smul effs.electricboiler (.var .p_el_boiler_el))
              (.var .p_th_boiler_gas))
        (.sub (.par .load_th) (.var .slack_th)) ]

/-- The part of the `cas.Opti` model fixed at build time: horizon, constraint
list, and the objective expression's parameters (`_formulate_ocp` calls
`_objective_expression(x, effs)` with its defaults `price_gas = 35`,
`dt_h = 1`, `slack_penalty = 1000`). -/
structure StructuralModel where
  horizon : Nat
  constraints : List Constr
  objEffs : Effs
  objPrice : PriceGas
  objDt : ℚ
  objPen : ℚ
deriving DecidableEq

/-- The full `cas.Opti` model state: structure plus current parameter values
(set through `ocp.set_value`; `none` before the first binding). -/
structure ModelState where
  structural : StructuralModel
  bind_load_el : Option (List ℚ)
  bind_load_th : Option (List ℚ)
  bind_pv_avail : Option (List ℚ)
deriving DecidableEq

/-- The objective expression minimized by the model
(`ocp.minimize(_objective_expression(x, effs))`). -/
def ModelState.objectiveAt (m : ModelState) (x : OptVariables) : ℚ :=
  objective_value x m.structural.objEffs m.structural.objPrice
    m.structural.objDt m.structural.objPen

/-- `_formulate_ocp` (optimize.py lines 105-157): build the reusable model
once. Variable/parameter handles are the fixed `VarId`/`ParId` enums; no data
is bound yet. -/
def formulate_ocp (system_parameters : Parameters) (horizon : Nat) :
    ModelState :=
  { structural :=
      { horizon := horizon
        constraints := constraintsOf system_parameters.cap system_parameters.eff
        objEffs := system_parameters.eff
        objPrice := .scalar 35
        objDt := 1
        objPen := 1000 }
    bind_load_el := none
    bind_load_th := none
    bind_pv_avail := none }

/-! ### Window solver and rolling-horizon driver -/

/-- Outcome of `ocp.solve()` on the currently bound model: either a
`Solution` with optimal values for the five decision vectors, or a
`RuntimeError` (infeasibility / non-convergence) in which case the last
iterate is readable through `ocp.debug.value`. The solver itself is the
external casadi/qpoases collaborator, modelled as an oracle on the bound
model state. -/
inductive SolverOutcome where
  | optimal (sol : OptVariables)
  | failure (debugVals : OptVariables)

/-- Oracle for the external solver collaborator. -/
def SolverOracle : Type := ModelState → SolverOutcome

/-- `ocp.set_value(handle, values)`: casadi raises a `RuntimeError` when the
value's shape does not match the declared parameter shape; otherwise it
replaces that parameter's bound value and touches nothing else. -/
def set_value (m : ModelState) (p : ParId) (v : List ℚ) :
    Except String ModelState :=
  if v.length = m.structural.horizon then
    .ok (match p with
      | .load_el => { m with bind_load_el := some v }
      | .load_th => { m with bind_load_th := some v }
      | .pv_avail => { m with bind_pv_avail := some v })
  else .error "set_value: dimension mismatch"

/-- The model state after the three `set_value` calls of `_solve` succeed. -/
def bind_window (m : ModelState) (ts_in : OptData) : ModelState :=
  { m with
    bind_load_el := some ts_in.load_el
    bind_load_th := some ts_in.load_th
    bind_pv_avail := some ts_in.pv_avail }

/-- `_solve` (optimize.py lines 160-190): bind the window's three data columns
(outside the exception handler), then call the solver. An optimal solution is
extracted and flagged successful exactly when every `slack_th` entry is zero
(`(result.slack_th == 0).all()`); a solver `RuntimeError` is recovered by
extracting the debug iterate and returning `success = False`. The plotting in
the handler is a screen side effect and is omitted. -/
def solveWindow (m : ModelState) (solver : SolverOracle) (ts_in : OptData) :
    Except String (ModelState × OptVariables × Bool) :=
  match set_value m .load_el ts_in.load_el with
  | .error e => .error e
  | .ok m =>
    match set_value m .load_th ts_in.load_th with
    | .error e => .error e
    | .ok m =>
      match set_value m .pv_avail ts_in.pv_avail with
      | .error e => .error e
      | .ok m =>
        match solver m with
        | .optimal sol =>
            .ok (m, sol, sol.slack_th.all fun s => decide (s = 0))
        | .failure debugVals =>
            .ok (m, debugVals, false)

/-- One row of the output DataFrame `schedules_ts`: the five variable columns
plus the `success` column. -/
structure ScheduleRow where
  p_el_gt : ℚ
  p_el_boiler_el : ℚ
  p_th_boiler_gas : ℚ
  p_el_pv : ℚ
  slack_th : ℚ
  success : Bool
deriving DecidableEq

/-- The rows written for one window by the per-column assignments
`schedules_ts.loc[start : start + window, col_name] = ...` together with the
`success` column assignment (optimize.py lines 63-68): entry `t` of each
extracted vector goes to the window's row `t`. -/
def windowRows (x : OptVariables) (success : Bool) (len : Nat) :
    List ScheduleRow :=
  (List.range len).map fun t =>
    { p_el_gt := x.p_el_gt.getD t 0
      p_el_boiler_el := x.p_el_boiler_el.getD t 0
      p_th_boiler_gas := x.p_th_boiler_gas.getD t 0
      p_el_pv := x.p_el_pv.getD t 0
      slack_th := x.slack_th.getD t 0
      success := success }

/-- Mutable state of `solve_problem`'s loop: the reusable model, the growing
`schedules_ts`, and the running `objective` accumulator. -/
structure RunState where
  model : ModelState
  schedule : List ScheduleRow
  objective : ℚ
deriving DecidableEq

/-- The three data columns of a window slice
`time_series.loc[start : start + window, :]`. -/
def windowData (w : List Row) : OptData :=
  { load_el := w.map Row.load_el
    load_th := w.map Row.load_th
    pv_avail := w.map Row.pv_avail }

/-- Recursion worker for `chunks`; the fuel argument (instantiated with the
series length) only makes the recursion structural. -/
def chunksGo (h : Nat) : Nat → List Row → List (List Row)
  | 0, _ => []
  | _ + 1, [] => []
  | fuel + 1, a :: l => (a :: l).take h :: chunksGo h fuel ((a :: l).drop h)

/-- Consecutive windows of `h` rows: the slices
`time_series.loc[start : start + window, :]` for
`start in time_series.index[::horizon]`, under the TimeSeries invariant of
strictly increasing, uniformly spaced hourly timestamps (`window` is
`(horizon - 1) * 1h` and `.loc` slicing is inclusive at both ends, so each
slice is the next `horizon` rows, the last one possibly shorter). -/
def chunks (h : Nat) (l : List Row) : List (List Row) :=
  chunksGo h l.length l

/-- The body of `solve_problem`'s `for` loop (optimize.py lines 55-75), one
iteration per window: solve the window, add this window's cost evaluated at
`slack_penalty = 0.0` (other arguments at their defaults) to the running
objective, and append the window's rows to the schedule. A `success = False`
window only triggers plotting; the loop continues. -/
def rollingLoop (solver : SolverOracle) (effs : Effs) :
    List (List Row) → RunState → Except String RunState
  | [], st => .ok st
  | w :: ws, st =>
    match solveWindow st.model solver (windowData w) with
    | .error e => .error e
    | .ok (m, x, success) =>
      match objectiveExpression x effs (.scalar 35) 1 0 with
      | .error e => .error e
      | .ok cost =>
        rollingLoop solver effs ws
          { model := m
            schedule := st.schedule ++ windowRows x success w.length
            objective := st.objective + cost }

/-- `solve_problem` up to its final reporting (optimize.py lines 34-75):
`horizon = 24`, formulate the model once, then run the rolling loop over all
windows starting from an empty schedule and a zero objective. -/
def solve_problem_run (time_series : List Row)
    (system_parameters : Parameters) (solver : SolverOracle) :
    Except String RunState :=
  rollingLoop solver system_parameters.eff (chunks 24 time_series)
    { model := formulate_ocp system_parameters 24
      schedule := []
      objective := 0 }

/-- Positions with `slack_th > 0.0` (the diagnostic `ind_slack`,
optimize.py line 77). -/
def slack_indices (schedule : List ScheduleRow) : List Nat :=
  (List.range schedule.length).filter fun t =>
    decide (0 < (schedule.map ScheduleRow.slack_th).getD t 0)

/-- Total unmet thermal energy `schedules_ts["slack_th"][ind_slack].sum()`
(optimize.py line 80). -/
def slack_total (schedule : List ScheduleRow) : ℚ :=
  (((schedule.map ScheduleRow.slack_th).filter fun s => decide (0 < s))).sum

/-- `solve_problem` (optimize.py lines 34-83): after the loop it computes and
prints the slack diagnostics and the running objective, and falls off the end
of the function body — the Python function returns `None`, modelled as
`Unit`. -/
def solve_problem (time_series : List Row)
    (system_parameters : Parameters) (solver : SolverOracle) :
    Except String Unit :=
  (solve_problem_run time_series system_parameters solver).map fun _ => ()

/-! ### Concrete instances used by witnesses and counterexamples -/

/-- All efficiencies 1 (simplest valid parameter values). -/
def effs1 : Effs := ⟨1, 1, 1⟩

/-- All capacities 10 MW (the spec's toy-scenario values). -/
def caps10 : Caps := ⟨10, 10, 10, 10⟩

/-- Toy parameter set. -/
def params0 : Parameters := ⟨caps10, effs1⟩

/-- A time-series row with zero loads and zero PV availability. -/
def row0 : Row := ⟨0, 0, 0⟩

/-- 24 zero rows: exactly one full window. -/
def ts24 : List Row := List.replicate 24 row0

/-- 26 zero rows: one full window followed by a short 2-row final window. -/
def ts26 : List Row := List.replicate 26 row0

/-- All-zero decision vectors of length `n`. -/
def zeroVars (n : Nat) : OptVariables :=
  ⟨List.replicate n 0, List.replicate n 0, List.replicate n 0,
   List.replicate n 0, List.replicate n 0⟩

/-- Oracle always reporting the all-zero length-24 dispatch as optimal. -/
def solverZero : SolverOracle := fun _ => .optimal (zeroVars 24)

/-- Oracle always reporting the all-zero length-1 dispatch as optimal. -/
def solverZero1 : SolverOracle := fun _ => .optimal (zeroVars 1)

/-- Oracle reporting an all-zero length-1 diagnostic iterate as a failure. -/
def solverFail1 : SolverOracle := fun _ => .failure (zeroVars 1)

/-- Two-step dispatch whose only nonzero values are `slack_th = [1, 1]`. -/
def xC1 : OptVariables := ⟨[0, 0], [0, 0], [0, 0], [0, 0], [1, 1]⟩

/-- Length-1 window data, all zero. -/
def d0 : OptData := ⟨[0], [0], [0]⟩

/-- Length-2 window data, all zero. -/
def d00 : OptData := ⟨[0, 0], [0, 0], [0, 0]⟩

/-- Length-2 window data, used against a length-1 model. -/
def dBad : OptData := ⟨[1, 2], [1, 2], [1, 2]⟩

/-- Efficiencies of the spec's toy scenario (electric boiler 0.9). -/
def effs09 : Effs := ⟨1, 9 / 10, 1⟩

/-! ## Theorems

`Rat.add`/`mul`/`inv`/`sub` are `@[irreducible]` in Batteries; making them
semireducible locally lets `decide` evaluate the model on concrete data. -/

section Verification

set_option allowUnsafeReducibility true

attribute [local semireducible] Rat.add Rat.mul Rat.inv Rat.sub

/-- In the cost expression, scaling every slack entry by zero kills the
slack-penalty summand. -/
theorem sum1_replicate_zero (n : Nat) : sum1 (List.replicate n (0 : ℚ)) = 0 := by
  simp [sum1]

/-- With `slack_penalty = 0`, the code's objective is exactly the two
fuel-cost sums. -/
theorem objective_value_zero_penalty (x : OptVariables) (effs : Effs)
    (price_gas : PriceGas) (dt_h : ℚ) :
    objective_value x effs price_gas dt_h 0 = fuel_cost x effs price_gas dt_h := by
  simp [objective_value, fuel_cost, sum1_replicate_zero]

/-- C1. The Cost Evaluator is claimed to add the slack-penalty term exactly
once. In the code (optimize.py lines 99-102) the parenthesization places
`cas.sum1(x.slack_th * slack_penalty)` inside the argument of the second
`cas.sum1`, so the scalar penalty sum broadcasts onto every entry of the
gas-boiler cost vector and is counted once per time step. At the two-step
input `xC1` (all power zero, `slack_th = [1, 1]`, efficiencies 1, gas price 1,
`dt_h = 1`, penalty 1) the code returns `4` — twice the `2` demanded by the
spec formula. -/
theorem C1_slack_term_scaled_by_window :
    objective_value xC1 effs1 (.scalar 1) 1 1 = 4 ∧
    objective_spec xC1 effs1 (.scalar 1) 1 1 = 2 ∧
    objective_value xC1 effs1 (.scalar 1) 1 1 ≠
      objective_spec xC1 effs1 (.scalar 1) 1 1 := by decide

/-- C2. `solve_problem` has no `return` statement: on a valid 24-step input it
assembles a 24-row schedule internally (second conjunct) but its return value
is `None` (modelled as `Unit`, first conjunct) — the schedule and diagnostics
are only printed, never returned, contradicting its own docstring
("Return solution time series to analyse / plot somewhere else"). -/
theorem C2_returns_nothing :
    solve_problem ts24 params0 solverZero = .ok () ∧
    (solve_problem_run ts24 params0 solverZero).map (fun st => st.schedule.length)
      = .ok 24 := by decide

/-- C5. The reported running total is accumulated through the shared cost
expression at `slack_penalty = 0`: at penalty zero the cost is invariant under
replacing the slack values and equals the pure fuel cost; the exact evaluator
call made by the rolling loop (`price_gas = 35`, `dt_h = 1`, penalty `0`)
returns the fuel cost; while the model built by `_formulate_ocp` minimizes the
same expression with the nonzero penalty `1000`. -/
theorem C5_reported_cost_is_fuel_cost :
    (∀ (x : OptVariables) (effs : Effs) (price_gas : PriceGas) (dt_h : ℚ)
        (s2 : List ℚ),
      objective_value { x with slack_th := s2 } effs price_gas dt_h 0 =
        objective_value x effs price_gas dt_h 0) ∧
    (∀ (x : OptVariables) (effs : Effs) (price_gas : PriceGas) (dt_h : ℚ),
      objective_value x effs price_gas dt_h 0 = fuel_cost x effs price_gas dt_h) ∧
    (∀ (x : OptVariables) (effs : Effs),
      objectiveExpression x effs (.scalar 35) 1 0 =
        .ok (fuel_cost x effs (.scalar 35) 1)) ∧
    (∀ (sp : Parameters) (horizon : Nat),
      (formulate_ocp sp horizon).structural.objPen = 1000) ∧
    (∀ (sp : Parameters) (horizon : Nat) (x : OptVariables),
      (formulate_ocp sp horizon).objectiveAt x =
        objective_value x sp.eff (.scalar 35) 1 1000) := by
  refine ⟨?_, ?_, ?_, ?_, ?_⟩
  · intro x effs price_gas dt_h s2
    rw [objective_value_zero_penalty, objective_value_zero_penalty]
    exact rfl
  · exact objective_value_zero_penalty
  · intro x effs
    simp [objectiveExpression, objective_value_zero_penalty]
  · intro sp horizon
    rfl
  · intro sp horizon x
    rfl

/-- C10. When the gas price is a per-time-step sequence whose length differs
from the variable vectors, the assert in `_objective_expression` fires and the
evaluation fails instead of returning a cost. -/
theorem C10_price_length_mismatch_fails (x : OptVariables) (effs : Effs)
    (ps : List ℚ) (dt_h slack_penalty : ℚ)
    (hlen : ps.length ≠ x.p_el_gt.length) :
    objectiveExpression x effs (.series ps) dt_h slack_penalty =
      .error "time variant gas price must have the same length as the variables" := by
  simp only [objectiveExpression]
  rw [if_neg fun h => hlen h.symm]

/-- Witness for C10: a two-step dispatch with a one-entry price series. -/
theorem C10_witness :
    [(1 : ℚ)].length ≠ (zeroVars 2).p_el_gt.length ∧
    objectiveExpression (zeroVars 2) effs1 (.series [1]) 1 1000 =
      .error "time variant gas price must have the same length as the variables" :=
  ⟨by decide, C10_price_length_mismatch_fails (zeroVars 2) effs1 [1] 1 1000 (by decide)⟩

/-- When the three data columns match the model's horizon, `_solve` reduces to
binding the window and dispatching on the solver's outcome. -/
theorem solveWindow_eq (m : ModelState) (solver : SolverOracle) (d : OptData)
    (h1 : d.load_el.length = m.structural.horizon)
    (h2 : d.load_th.length = m.structural.horizon)
    (h3 : d.pv_avail.length = m.structural.horizon) :
    solveWindow m solver d =
      match solver (bind_window m d) with
      | .optimal sol =>
          .ok (bind_window m d, sol, sol.slack_th.all fun s => decide (s = 0))
      | .failure debugVals => .ok (bind_window m d, debugVals, false) := by
  simp [solveWindow, set_value, h1, h2, h3, bind_window]

/-- A window whose first column has the wrong length fails at the first
`set_value`, before any solver call. -/
theorem solveWindow_error_of_len (m : ModelState) (solver : SolverOracle)
    (d : OptData) (h : d.load_el.length ≠ m.structural.horizon) :
    solveWindow m solver d = .error "set_value: dimension mismatch" := by
  simp [solveWindow, set_value, h]

/-- `ocp.set_value` never changes the structural part of the model. -/
theorem set_value_structural {m : ModelState} {p : ParId} {v : List ℚ}
    {m' : ModelState} (h : set_value m p v = .ok m') :
    m'.structural = m.structural := by
  unfold set_value at h
  split at h
  · cases p <;> (injection h with h; subst h; rfl)
  · exact Except.noConfusion h

/-- `_solve` never changes the structural part of the model. -/
theorem solveWindow_structural {m : ModelState} {solver : SolverOracle}
    {d : OptData} {out : ModelState × OptVariables × Bool}
    (h : solveWindow m solver d = .ok out) :
    out.1.structural = m.structural := by
  unfold solveWindow at h
  cases e1 : set_value m .load_el d.load_el with
  | error e => rw [e1] at h; exact Except.noConfusion h
  | ok m1 =>
    rw [e1] at h
    dsimp only at h
    cases e2 : set_value m1 .load_th d.load_th with
    | error e => rw [e2] at h; exact Except.noConfusion h
    | ok m2 =>
      rw [e2] at h
      dsimp only at h
      cases e3 : set_value m2 .pv_avail d.pv_avail with
      | error e => rw [e3] at h; exact Except.noConfusion h
      | ok m3 =>
        rw [e3] at h
        dsimp only at h
        have hs : m3.structural = m.structural := by
          rw [set_value_structural e3, set_value_structural e2,
            set_value_structural e1]
        cases hsol : solver m3 <;> rw [hsol] at h <;>
          (injection h with h; subst h; exact hs)

/-- The rolling loop never changes the structural part of the model. -/
theorem rollingLoop_structural (solver : SolverOracle) (effs : Effs) :
    ∀ (ws : List (List Row)) (st st' : RunState),
      rollingLoop solver effs ws st = .ok st' →
      st'.model.structural = st.model.structural := by
  intro ws
  induction ws with
  | nil =>
    intro st st' h
    injection h with h
    subst h
    rfl
  | cons w ws ih =>
    intro st st' h
    unfold rollingLoop at h
    cases e1 : solveWindow st.model solver (windowData w) with
    | error e => rw [e1] at h; exact Except.noConfusion h
    | ok out =>
      obtain ⟨m, x, success⟩ := out
      rw [e1] at h
      dsimp only at h
      cases e2 : objectiveExpression x effs (.scalar 35) 1 0 with
      | error e => rw [e2] at h; exact Except.noConfusion h
      | ok cost =>
        rw [e2] at h
        dsimp only at h
        have := ih _ _ h
        rw [this]
        exact solveWindow_structural e1

/-- C3. With correctly-sized window data: when the solver returns an optimal
solution, `_solve` returns it with the success flag
`(result.slack_th == 0).all()`, which is true exactly when every slack entry
is zero; when the solver fails, `_solve` returns the debug iterate with
`success = False`, without raising. -/
theorem C3_success_iff_zero_slack (m : ModelState) (solver : SolverOracle)
    (d : OptData)
    (h1 : d.load_el.length = m.structural.horizon)
    (h2 : d.load_th.length = m.structural.horizon)
    (h3 : d.pv_avail.length = m.structural.horizon) :
    (∀ sol, solver (bind_window m d) = .optimal sol →
      solveWindow m solver d =
        .ok (bind_window m d, sol, sol.slack_th.all fun s => decide (s = 0)) ∧
      ((sol.slack_th.all fun s => decide (s = 0)) = true ↔
        ∀ s ∈ sol.slack_th, s = 0)) ∧
    (∀ debugVals, solver (bind_window m d) = .failure debugVals →
      solveWindow m solver d = .ok (bind_window m d, debugVals, false)) := by
  constructor
  · intro sol hsol
    refine ⟨?_, by simp⟩
    rw [solveWindow_eq m solver d h1 h2 h3, hsol]
  · intro debugVals hsol
    rw [solveWindow_eq m solver d h1 h2 h3, hsol]

/-- Witness for C3: a one-step model, zero data, and an oracle reporting the
all-zero dispatch as optimal. -/
theorem C3_witness :
    d0.load_el.length = (formulate_ocp params0 1).structural.horizon ∧
    (solveWindow (formulate_ocp params0 1) solverZero1 d0 =
        .ok (bind_window (formulate_ocp params0 1) d0, zeroVars 1,
          (zeroVars 1).slack_th.all fun s => decide (s = 0)) ∧
      (((zeroVars 1).slack_th.all fun s => decide (s = 0)) = true ↔
        ∀ s ∈ (zeroVars 1).slack_th, s = 0)) :=
  ⟨by decide,
    (C3_success_iff_zero_slack (formulate_ocp params0 1) solverZero1 d0
      (by decide) (by decide) (by decide)).1 (zeroVars 1) rfl⟩

/-- C8. The model structure (horizon, bounds and balance constraints,
objective) is never mutated: `set_value` only rebinds a data slot, `_solve`
only rebinds the three data slots, the rolling loop preserves the structure
across all iterations, and the final model of a whole run is structurally the
model formulated once before the loop. -/
theorem C8_model_built_once :
    (∀ (m : ModelState) (p : ParId) (v : List ℚ) (m' : ModelState),
      set_value m p v = .ok m' → m'.structural = m.structural) ∧
    (∀ (m : ModelState) (solver : SolverOracle) (d : OptData)
        (out : ModelState × OptVariables × Bool),
      solveWindow m solver d = .ok out → out.1.structural = m.structural) ∧
    (∀ (solver : SolverOracle) (effs : Effs) (ws : List (List Row))
        (st st' : RunState),
      rollingLoop solver effs ws st = .ok st' →
      st'.model.structural = st.model.structural) ∧
    (∀ (ts : List Row) (sp : Parameters) (solver : SolverOracle)
        (st' : RunState),
      solve_problem_run ts sp solver = .ok st' →
      st'.model.structural = (formulate_ocp sp 24).structural) :=
  ⟨fun _ _ _ _ h => set_value_structural h,
   fun _ _ _ _ h => solveWindow_structural h,
   fun solver effs ws st st' h => rollingLoop_structural solver effs ws st st' h,
   fun _ sp solver st' h => rollingLoop_structural solver sp.eff _ _ st' h⟩

/-- Witness for C8: a concrete one-step solve whose output model keeps the
structural part of the formulated model. -/
theorem C8_witness :
    (bind_window (formulate_ocp params0 1) d0, zeroVars 1, true).1.structural
      = (formulate_ocp params0 1).structural :=
  C8_model_built_once.2.1 (formulate_ocp params0 1) solverZero1 d0
    (bind_window (formulate_ocp params0 1) d0, zeroVars 1, true) (by decide)

/-- The windows produced by the rolling slicing concatenate back to the
input series: no gaps, no overlaps, each row exactly once. -/
theorem chunksGo_join (h : Nat) (hpos : 0 < h) :
    ∀ (fuel : Nat) (l : List Row), l.length ≤ fuel →
      (chunksGo h fuel l).flatten = l := by
  intro fuel
  induction fuel with
  | zero =>
    intro l hl
    have hnil : l = [] := List.eq_nil_of_length_eq_zero (Nat.le_zero.mp hl)
    subst hnil
    rfl
  | succ fuel ih =>
    intro l hl
    cases l with
    | nil => rfl
    | cons a l' =>
      show ((a :: l').take h :: chunksGo h fuel ((a :: l').drop h)).flatten = a :: l'
      rw [List.flatten_cons, ih ((a :: l').drop h) ?_, List.take_append_drop]
      rw [List.length_drop]
      simp only [List.length_cons] at hl ⊢
      omega

/-- `chunks` version of `chunksGo_join`. -/
theorem chunks_join (h : Nat) (hpos : 0 < h) (l : List Row) :
    (chunks h l).flatten = l :=
  chunksGo_join h hpos l.length l le_rfl

/-- When the window size divides the series length, every window is full. -/
theorem chunksGo_length_eq (h : Nat) (hpos : 0 < h) :
    ∀ (fuel : Nat) (l : List Row), l.length ≤ fuel → h ∣ l.length →
      ∀ w ∈ chunksGo h fuel l, w.length = h := by
  intro fuel
  induction fuel with
  | zero =>
    intro l _ _ w hw
    simp [chunksGo] at hw
  | succ fuel ih =>
    intro l hl hd w hw
    cases l with
    | nil => simp [chunksGo] at hw
    | cons a l' =>
      rcases List.mem_cons.mp hw with hw | hw
      · subst hw
        rw [List.length_take]
        have hle : h ≤ (a :: l').length := Nat.le_of_dvd (by simp) hd
        omega
      · refine ih ((a :: l').drop h) ?_ ?_ w hw
        · rw [List.length_drop]
          simp only [List.length_cons] at hl ⊢
          omega
        · rw [List.length_drop]
          exact Nat.dvd_sub' hd (dvd_refl h)

/-- The window lengths sum to the series length. -/
theorem length_join_chunks (h : Nat) (hpos : 0 < h) (l : List Row) :
    ((chunks h l).map List.length).sum = l.length := by
  rw [← List.length_flatten, chunks_join h hpos]

/-- A list of naturals all equal to `h` sums to its length times `h`. -/
theorem sum_eq_mul_of_all_eq (h : Nat) :
    ∀ ns : List Nat, (∀ n ∈ ns, n = h) → ns.sum = ns.length * h := by
  intro ns
  induction ns with
  | nil => simp
  | cons n ns ih =>
    intro hall
    have hn : n = h := hall n (by simp)
    have hs : ns.sum = ns.length * h := ih fun n' hn' => hall n' (by simp [hn'])
    simp only [List.sum_cons, List.length_cons, hn, hs]
    ring

/-- When the window size does not divide the series length, some window is
short. -/
theorem chunks_exists_short (h : Nat) (hpos : 0 < h) (l : List Row)
    (hnd : ¬ h ∣ l.length) : ∃ w ∈ chunks h l, w.length ≠ h := by
  by_contra hc
  push_neg at hc
  have h1 : ((chunks h l).map List.length).sum = (chunks h l).length * h := by
    have hall : ∀ n ∈ (chunks h l).map List.length, n = h := by
      intro n hn
      rcases List.mem_map.mp hn with ⟨w, hw, rfl⟩
      exact hc w hw
    rw [sum_eq_mul_of_all_eq h ((chunks h l).map List.length) hall,
      List.length_map]
  have h2 := length_join_chunks h hpos l
  exact hnd ⟨(chunks h l).length, by rw [← h2, h1]; ring⟩

/-- The number of rows written for a window equals the window's length. -/
theorem windowRows_length (x : OptVariables) (success : Bool) (len : Nat) :
    (windowRows x success len).length = len := by
  simp [windowRows]

/-- When every window is exactly the model's horizon, the rolling loop
completes: it returns a final state whose model structure is unchanged and
whose schedule grew by exactly one row per input row, regardless of the
solver's outcomes. -/
theorem rollingLoop_ok_of_lens (solver : SolverOracle) (effs : Effs) :
    ∀ (ws : List (List Row)) (st : RunState),
      (∀ w ∈ ws, w.length = st.model.structural.horizon) →
      ∃ st', rollingLoop solver effs ws st = .ok st' ∧
        st'.model.structural = st.model.structural ∧
        st'.schedule.length = st.schedule.length + (ws.map List.length).sum := by
  intro ws
  induction ws with
  | nil =>
    intro st _
    exact ⟨st, rfl, rfl, by simp⟩
  | cons w ws ih =>
    intro st hlen
    have hw : w.length = st.model.structural.horizon := hlen w (by simp)
    have h1 : (windowData w).load_el.length = st.model.structural.horizon := by
      simp [windowData, hw]
    have h2 : (windowData w).load_th.length = st.model.structural.horizon := by
      simp [windowData, hw]
    have h3 : (windowData w).pv_avail.length = st.model.structural.horizon := by
      simp [windowData, hw]
    have hsw : ∃ xs : OptVariables × Bool,
        solveWindow st.model solver (windowData w) =
          .ok (bind_window st.model (windowData w), xs.1, xs.2) := by
      rw [solveWindow_eq _ _ _ h1 h2 h3]
      cases solver (bind_window st.model (windowData w)) with
      | optimal sol => exact ⟨(sol, sol.slack_th.all fun s => decide (s = 0)), rfl⟩
      | failure debugVals => exact ⟨(debugVals, false), rfl⟩
    obtain ⟨⟨x, s⟩, hsw⟩ := hsw
    obtain ⟨st', hrun, hstruct, hsched⟩ := ih
      { model := bind_window st.model (windowData w)
        schedule := st.schedule ++ windowRows x s w.length
        objective := st.objective + objective_value x effs (.scalar 35) 1 0 }
      (fun w' hw' => hlen w' (by simp [hw']))
    refine ⟨st', ?_, ?_, ?_⟩
    · rw [show rollingLoop solver effs (w :: ws) st =
          match solveWindow st.model solver (windowData w) with
          | .error e => .error e
          | .ok (m, x, success) =>
            match objectiveExpression x effs (.scalar 35) 1 0 with
            | .error e => .error e
            | .ok cost =>
              rollingLoop solver effs ws
                { model := m
                  schedule := st.schedule ++ windowRows x success w.length
                  objective := st.objective + cost } from rfl, hsw]
      exact hrun
    · exact hstruct
    · rw [hsched]
      simp only [List.length_append, windowRows_length, List.map_cons,
        List.sum_cons]
      omega

/-- If some window's length differs from the model's horizon, the rolling
loop aborts with an error (for every solver oracle). -/
theorem rollingLoop_error_of_short (solver : SolverOracle) (effs : Effs) :
    ∀ (ws : List (List Row)) (st : RunState),
      (∃ w ∈ ws, w.length ≠ st.model.structural.horizon) →
      ∃ e, rollingLoop solver effs ws st = .error e := by
  intro ws
  induction ws with
  | nil =>
    intro st hbad
    simp at hbad
  | cons w ws ih =>
    intro st hbad
    by_cases hw : w.length = st.model.structural.horizon
    · have hbad' : ∃ w' ∈ ws, w'.length ≠ st.model.structural.horizon := by
        rcases hbad with ⟨w', hw', hne⟩
        rcases List.mem_cons.mp hw' with rfl | hw'
        · exact absurd hw hne
        · exact ⟨w', hw', hne⟩
      have h1 : (windowData w).load_el.length = st.model.structural.horizon := by
        simp [windowData, hw]
      have h2 : (windowData w).load_th.length = st.model.structural.horizon := by
        simp [windowData, hw]
      have h3 : (windowData w).pv_avail.length = st.model.structural.horizon := by
        simp [windowData, hw]
      have hsw : ∃ xs : OptVariables × Bool,
          solveWindow st.model solver (windowData w) =
            .ok (bind_window st.model (windowData w), xs.1, xs.2) := by
        rw [solveWindow_eq _ _ _ h1 h2 h3]
        cases solver (bind_window st.model (windowData w)) with
        | optimal sol =>
          exact ⟨(sol, sol.slack_th.all fun s => decide (s = 0)), rfl⟩
        | failure debugVals => exact ⟨(debugVals, false), rfl⟩
      obtain ⟨⟨x, s⟩, hsw⟩ := hsw
      obtain ⟨e, herr⟩ := ih
        { model := bind_window st.model (windowData w)
          schedule := st.schedule ++ windowRows x s w.length
          objective := st.objective + objective_value x effs (.scalar 35) 1 0 }
        hbad'
      refine ⟨e, ?_⟩
      rw [show rollingLoop solver effs (w :: ws) st =
          match solveWindow st.model solver (windowData w) with
          | .error e => .error e
          | .ok (m, x, success) =>
            match objectiveExpression x effs (.scalar 35) 1 0 with
            | .error e => .error e
            | .ok cost =>
              rollingLoop solver effs ws
                { model := m
                  schedule := st.schedule ++ windowRows x success w.length
                  objective := st.objective + cost } from rfl, hsw]
      exact herr
    · have hlen : (windowData w).load_el.length ≠ st.model.structural.horizon := by
        simpa [windowData] using hw
      refine ⟨"set_value: dimension mismatch", ?_⟩
      rw [show rollingLoop solver effs (w :: ws) st =
          match solveWindow st.model solver (windowData w) with
          | .error e => .error e
          | .ok (m, x, success) =>
            match objectiveExpression x effs (.scalar 35) 1 0 with
            | .error e => .error e
            | .ok cost =>
              rollingLoop solver effs ws
                { model := m
                  schedule := st.schedule ++ windowRows x success w.length
                  objective := st.objective + cost } from rfl,
        solveWindow_error_of_len st.model solver (windowData w) hlen]

/-- C6. `_solve` performs the three `ocp.set_value` bindings before entering
the `try` block, so a window whose data length differs from the model's fixed
horizon raises there — for every solver oracle, i.e. the failure is not
converted into a `success = False` result — and the exception propagates out
of the rolling loop: any series whose length is not a multiple of 24 makes the
whole run abort with an error. -/
theorem C6_binding_precedes_recovery :
    (∀ (m : ModelState) (solver : SolverOracle) (d : OptData),
      d.load_el.length ≠ m.structural.horizon →
      solveWindow m solver d = .error "set_value: dimension mismatch") ∧
    (∀ (ts : List Row) (sp : Parameters) (solver : SolverOracle),
      ts.length % 24 ≠ 0 →
      ∃ e, solve_problem_run ts sp solver = .error e) := by
  constructor
  · exact fun m solver d h => solveWindow_error_of_len m solver d h
  · intro ts sp solver hmod
    have hnd : ¬ (24 ∣ ts.length) := by
      rw [Nat.dvd_iff_mod_eq_zero]
      exact hmod
    obtain ⟨w, hw, hne⟩ := chunks_exists_short 24 (by norm_num) ts hnd
    exact rollingLoop_error_of_short solver sp.eff (chunks 24 ts)
      { model := formulate_ocp sp 24, schedule := [], objective := 0 }
      ⟨w, hw, hne⟩

/-- Witness for C6: a length-2 window bound against a one-step model. -/
theorem C6_witness :
    dBad.load_el.length ≠ (formulate_ocp params0 1).structural.horizon ∧
    solveWindow (formulate_ocp params0 1) solverZero1 dBad =
      .error "set_value: dimension mismatch" :=
  ⟨by decide,
    C6_binding_precedes_recovery.1 (formulate_ocp params0 1) solverZero1 dBad
      (by decide)⟩

/-- C4 counterexample. The claim quantifies over every input time series, but
on a 26-step series (not a multiple of the fixed horizon 24) the run aborts
with an error at the short final window, producing no schedule at all — so
not every timestamp of the input appears in an output schedule. -/
theorem C4_counterexample :
    ts26.length = 26 ∧
    solve_problem_run ts26 params0 solverZero =
      .error "set_value: dimension mismatch" := by decide

/-- C4 (amended): when the window size 24 divides the series length, the
windows are consecutive, non-overlapping and gap-free (they concatenate back
to the input, each row exactly once), every window is full, and — for every
solver oracle, so also across unsuccessful windows — the run completes with a
schedule holding exactly one row per input row. -/
theorem C4_partition_and_full_coverage (ts : List Row) (sp : Parameters)
    (solver : SolverOracle) (hdvd : 24 ∣ ts.length) :
    (chunks 24 ts).flatten = ts ∧
    (∀ w ∈ chunks 24 ts, w.length = 24) ∧
    ∃ st, solve_problem_run ts sp solver = .ok st ∧
      st.schedule.length = ts.length := by
  have hpos : (0 : Nat) < 24 := by norm_num
  have hall : ∀ w ∈ chunks 24 ts, w.length = 24 :=
    chunksGo_length_eq 24 hpos ts.length ts le_rfl hdvd
  refine ⟨chunks_join 24 hpos ts, hall, ?_⟩
  obtain ⟨st', hrun, _, hlen⟩ := rollingLoop_ok_of_lens solver sp.eff
    (chunks 24 ts)
    { model := formulate_ocp sp 24, schedule := [], objective := 0 }
    (fun w hw => hall w hw)
  refine ⟨st', hrun, ?_⟩
  rw [hlen]
  simp only [List.length_nil, Nat.zero_add]
  exact length_join_chunks 24 hpos ts

/-- Witness for C4 (amended): a 24-step series with the all-zero oracle. -/
theorem C4_witness :
    (24 ∣ ts24.length) ∧
    ((chunks 24 ts24).flatten = ts24 ∧
     (∀ w ∈ chunks 24 ts24, w.length = 24) ∧
     ∃ st, solve_problem_run ts24 params0 solverZero = .ok st ∧
       st.schedule.length = ts24.length) :=
  ⟨by decide, C4_partition_and_full_coverage ts24 params0 solverZero (by decide)⟩

/-- C7. Any values satisfying the formulated constraint list obey both energy
balances at every time step of the horizon, and the equality constraints of
the formulated model are exactly those two. -/
theorem C7_energy_balances (caps : Caps) (effs : Effs) (horizon : Nat)
    (x : OptVariables) (d : OptData)
    (hs : satisfiesAll x d horizon (constraintsOf caps effs)) :
    (∀ t, t < horizon →
      x.p_el_gt.getD t 0 + x.p_el_pv.getD t 0 =
        d.load_el.getD t 0 + x.p_el_boiler_el.getD t 0 ∧
      x.p_el_boiler_el.getD t 0 * effs.electricboiler +
          x.p_th_boiler_gas.getD t 0 =
        d.load_th.getD t 0 - x.slack_th.getD t 0) ∧
    (constraintsOf caps effs).filter Constr.isEqCon =
      [.eq (.add (.var .p_el_gt) (.var .p_el_pv))
           (.add (.par .load_el) (.var .p_el_boiler_el)),
       .eq (.add (.smul effs.electricboiler (.var .p_el_boiler_el))
                 (.var .p_th_boiler_gas))
           (.sub (.par .load_th) (.var .slack_th))] := by
  constructor
  · intro t ht
    have hel := hs (.eq (.add (.var .p_el_gt) (.var .p_el_pv))
        (.add (.par .load_el) (.var .p_el_boiler_el)))
      (by simp [constraintsOf]) t ht
    have hth := hs (.eq (.add (.smul effs.electricboiler (.var .p_el_boiler_el))
          (.var .p_th_boiler_gas))
        (.sub (.par .load_th) (.var .slack_th)))
      (by simp [constraintsOf]) t ht
    simp only [Constr.holds, LinExpr.eval, VarId.sel, ParId.sel] at hel hth
    rw [mul_comm] at hth
    exact ⟨hel, hth⟩
  · rfl

/-- Witness for C7: the all-zero one-step dispatch on zero data satisfies the
toy model's constraints. -/
theorem C7_witness :
    satisfiesAll (zeroVars 1) d0 1 (constraintsOf caps10 effs1) ∧
    ((∀ t, t < 1 →
      (zeroVars 1).p_el_gt.getD t 0 + (zeroVars 1).p_el_pv.getD t 0 =
        d0.load_el.getD t 0 + (zeroVars 1).p_el_boiler_el.getD t 0 ∧
      (zeroVars 1).p_el_boiler_el.getD t 0 * effs1.electricboiler +
          (zeroVars 1).p_th_boiler_gas.getD t 0 =
        d0.load_th.getD t 0 - (zeroVars 1).slack_th.getD t 0) ∧
    (constraintsOf caps10 effs1).filter Constr.isEqCon =
      [.eq (.add (.var .p_el_gt) (.var .p_el_pv))
           (.add (.par .load_el) (.var .p_el_boiler_el)),
       .eq (.add (.smul effs1.electricboiler (.var .p_el_boiler_el))
                 (.var .p_th_boiler_gas))
           (.sub (.par .load_th) (.var .slack_th))]) :=
  ⟨by decide, C7_energy_balances caps10 effs1 1 (zeroVars 1) d0 (by decide)⟩

/-- C9. Any values satisfying the formulated constraint list obey the bounds
of the formulation at every time step: the three capacity bounds, the
PV-availability bound, and `0 ≤ slack_th ≤ load_th`. -/
theorem C9_bounds_hold (caps : Caps) (effs : Effs) (horizon : Nat)
    (x : OptVariables) (d : OptData)
    (hs : satisfiesAll x d horizon (constraintsOf caps effs)) :
    ∀ t, t < horizon →
      (0 ≤ x.p_el_gt.getD t 0 ∧ x.p_el_gt.getD t 0 ≤ caps.gasturbine) ∧
      (0 ≤ x.p_el_boiler_el.getD t 0 ∧
        x.p_el_boiler_el.getD t 0 ≤ caps.electricboiler) ∧
      (0 ≤ x.p_th_boiler_gas.getD t 0 ∧
        x.p_th_boiler_gas.getD t 0 ≤ caps.gasboiler) ∧
      (0 ≤ x.p_el_pv.getD t 0 ∧
        x.p_el_pv.getD t 0 ≤ d.pv_avail.getD t 0 * caps.photovoltaic) ∧
      (0 ≤ x.slack_th.getD t 0 ∧ x.slack_th.getD t 0 ≤ d.load_th.getD t 0) := by
  intro t ht
  refine ⟨⟨?_, ?_⟩, ⟨?_, ?_⟩, ⟨?_, ?_⟩, ⟨?_, ?_⟩, ⟨?_, ?_⟩⟩
  · simpa [Constr.holds, LinExpr.eval, VarId.sel, ParId.sel] using
      hs (.ge (.var .p_el_gt) (.const 0)) (by simp [constraintsOf]) t ht
  · simpa [Constr.holds, LinExpr.eval, VarId.sel, ParId.sel] using
      hs (.le (.var .p_el_gt) (.const caps.gasturbine))
        (by simp [constraintsOf]) t ht
  · simpa [Constr.holds, LinExpr.eval, VarId.sel, ParId.sel] using
      hs (.ge (.var .p_el_boiler_el) (.const 0)) (by simp [constraintsOf]) t ht
  · simpa [Constr.holds, LinExpr.eval, VarId.sel, ParId.sel] using
      hs (.le (.var .p_el_boiler_el) (.const caps.electricboiler))
        (by simp [constraintsOf]) t ht
  · simpa [Constr.holds, LinExpr.eval, VarId.sel, ParId.sel] using
      hs (.ge (.var .p_th_boiler_gas) (.const 0)) (by simp [constraintsOf]) t ht
  · simpa [Constr.holds, LinExpr.eval, VarId.sel, ParId.sel] using
      hs (.le (.var .p_th_boiler_gas) (.const caps.gasboiler))
        (by simp [constraintsOf]) t ht
  · simpa [Constr.holds, LinExpr.eval, VarId.sel, ParId.sel] using
      hs (.ge (.var .p_el_pv) (.const 0)) (by simp [constraintsOf]) t ht
  · have := hs (.le (.var .p_el_pv) (.smul caps.photovoltaic (.par .pv_avail)))
      (by simp [constraintsOf]) t ht
    simp only [Constr.holds, LinExpr.eval, VarId.sel, ParId.sel] at this
    rw [mul_comm] at this
    exact this
  · simpa [Constr.holds, LinExpr.eval, VarId.sel, ParId.sel] using
      hs (.ge (.var .slack_th) (.const 0)) (by simp [constraintsOf]) t ht
  · simpa [Constr.holds, LinExpr.eval, VarId.sel, ParId.sel] using
      hs (.le (.var .slack_th) (.par .load_th)) (by simp [constraintsOf]) t ht

/-- Witness for C9: the all-zero two-step dispatch on zero data with the toy
capacities and a 0.9-efficient electric boiler satisfies all constraints. -/
theorem C9_witness :
    satisfiesAll (zeroVars 2) d00 2 (constraintsOf caps10 effs09) ∧
    (∀ t, t < 2 →
      (0 ≤ (zeroVars 2).p_el_gt.getD t 0 ∧
        (zeroVars 2).p_el_gt.getD t 0 ≤ caps10.gasturbine) ∧
      (0 ≤ (zeroVars 2).p_el_boiler_el.getD t 0 ∧
        (zeroVars 2).p_el_boiler_el.getD t 0 ≤ caps10.electricboiler) ∧
      (0 ≤ (zeroVars 2).p_th_boiler_gas.getD t 0 ∧
        (zeroVars 2).p_th_boiler_gas.getD t 0 ≤ caps10.gasboiler) ∧
      (0 ≤ (zeroVars 2).p_el_pv.getD t 0 ∧
        (zeroVars 2).p_el_pv.getD t 0 ≤
          d00.pv_avail.getD t 0 * caps10.photovoltaic) ∧
      (0 ≤ (zeroVars 2).slack_th.getD t 0 ∧
        (zeroVars 2).slack_th.getD t 0 ≤ d00.load_th.getD t 0)) :=
  ⟨by decide, C9_bounds_hold caps10 effs09 2 (zeroVars 2) d00 (by decide)⟩

end Verification

end Rizm
